import Mathlib

/-!
Verification development for the splice-playground repository.

The repository under verification consists of a Next.js frontend
(DiseaseSelector.tsx, DNAManipulator.tsx), two Postgres DDL scripts
(the superseded scrpts/supabase_upload/DDL.sql and the authoritative
rebuild schema), and backend documentation.  The sequence/edit core
(CoordinateModel, SequenceEditor, EditStateGraph, ResultCache,
StructureJobManager) is described by the backend README and the design
document but its implementation files are not part of the repository,
so those components are modelled from the spec where noted; everything
else is translated directly from the source files.
-/

/-- A DNA base over the alphabet used throughout the repository
(DDL checks `ref in ('A','C','G','T','N')`, frontend alphabet ACGTN). -/
inductive Base where
  | A : Base
  | C : Base
  | G : Base
  | T : Base
  | N : Base
deriving DecidableEq, Repr

/-- Gene strand, DDL check `strand in ('+','-')`. -/
inductive Strand where
  | plus : Strand
  | minus : Strand
deriving DecidableEq, Repr

/-- Modelled from the spec: `reverseComplement` of CoordinateModel (§4.1,
missing from src/) maps A↔T, C↔G, N↔N; the base-level complement. -/
def complementBase : Base → Base
  | Base.A => Base.T
  | Base.T => Base.A
  | Base.C => Base.G
  | Base.G => Base.C
  | Base.N => Base.N

/-- Modelled from the spec: `reverseComplement(seq)` of CoordinateModel
(§4.1, missing from src/) complements every base and reverses order. -/
def reverseComplement (s : List Base) : List Base :=
  (s.map complementBase).reverse

theorem complementBase_involutive (b : Base) :
    complementBase (complementBase b) = b := by
  cases b <;> rfl

/-- Claim C9: for every sequence s over the alphabet A,C,G,T,N,
reverseComplement (reverseComplement s) = s, where reverseComplement
maps A↔T, C↔G, N↔N and reverses order. -/
theorem c9_reverseComplement_involution (s : List Base) :
    reverseComplement (reverseComplement s) = s := by
  unfold reverseComplement
  rw [List.map_reverse, List.reverse_reverse, List.map_map]
  have h : complementBase ∘ complementBase = id := by
    funext b
    exact complementBase_involutive b
  rw [h, List.map_id]

/-- Modelled from the spec: a gene as the core needs it — `strand` and
`length` from the `gene` table of the rebuild schema. -/
structure Gene where
  strand : Strand
  length : Nat
deriving DecidableEq, Repr

/-- Modelled from the spec: window bounds returned by
`RegionIndex.windowAround` (§4.2, missing from src/): inclusive
gene-local `[lo, hi]`, plus the documented `clamped` flag. -/
structure WinBounds where
  lo : Nat
  hi : Nat
  clamped : Bool
deriving DecidableEq, Repr

/-- Modelled from the spec: `windowAround(focus_pos, half_width)` of
RegionIndex (§4.2, missing from src/): clamps the requested window
`[pos - h, pos + h]` into `[0, len)` without changing its width, unless
the gene is shorter than the window, in which case the whole gene is
returned with `clamped = true`. -/
def windowAround (len pos h : Nat) : WinBounds :=
  if len < 2 * h + 1 then
    { lo := 0, hi := len - 1, clamped := true }
  else
    { lo := min (pos - h) (len - (2 * h + 1))
      hi := min (pos - h) (len - (2 * h + 1)) + 2 * h
      clamped := false }

/-- Inclusive slice `seq[a..b]` of a gene-local sequence. -/
def sliceSeq (s : List Base) (a b : Nat) : List Base :=
  (s.drop a).take (b + 1 - a)

/-- One extracted analysis window: the (possibly reverse-complemented)
window sequence and the offset of the focus position within it. -/
structure WindowResult where
  seq : List Base
  focus_offset : Nat
  clamped : Bool
deriving DecidableEq, Repr

/-- Modelled from the spec: `extractWindow` of SequenceEditor (§4.3,
missing from src/).  Positive-strand bounds come from `windowAround`;
for a `-` strand gene the Mission6 off-by-one fix of the backend README
(`start += 1; end += 1` before reverse-complement) is applied and the
slice is reverse-complemented.  `focus_offset` is the position of the
variant inside the returned window. -/
def extractWindow (g : Gene) (seq : List Base) (pos width : Nat) : WindowResult :=
  let b := windowAround g.length pos (width / 2)
  match g.strand with
  | Strand.plus =>
      { seq := sliceSeq seq b.lo b.hi
        focus_offset := pos - b.lo
        clamped := b.clamped }
  | Strand.minus =>
      { seq := reverseComplement (sliceSeq seq (b.lo + 1) (b.hi + 1))
        focus_offset := (b.hi + 1) - pos
        clamped := b.clamped }

/-- Claim C1: on a `-` strand gene the window bounds are each incremented
by one before reverse-complementing, and consequently `extractWindow`
reports the same `focus_offset` for an edited sequence as for the
unedited one (the offset depends only on gene, position and width). -/
theorem c1_minus_strand_window
    (g : Gene) (ref edited : List Base) (pos width : Nat)
    (h : g.strand = Strand.minus) :
    (extractWindow g edited pos width).focus_offset
      = (extractWindow g ref pos width).focus_offset ∧
    (extractWindow g ref pos width).seq
      = reverseComplement (sliceSeq ref
          ((windowAround g.length pos (width / 2)).lo + 1)
          ((windowAround g.length pos (width / 2)).hi + 1)) := by
  constructor <;> simp [extractWindow, h]

/-- Demo gene of spec §8: length 10, strand `-`. -/
def demoGene : Gene := { strand := Strand.minus, length := 10 }

/-- Demo reference sequence ACGTACGTAC of spec §8. -/
def demoRef : List Base :=
  [Base.A, Base.C, Base.G, Base.T, Base.A, Base.C, Base.G, Base.T, Base.A, Base.C]

/-- Demo edited sequence: SNV pos 3, alt G in positive-strand convention,
written as its complement C into the gene-local forward sequence. -/
def demoEdited : List Base :=
  [Base.A, Base.C, Base.G, Base.C, Base.A, Base.C, Base.G, Base.T, Base.A, Base.C]

/-- Witness for C1 at the spec §8 demo gene: the strand hypothesis holds
and both conclusions evaluate on concrete data. -/
theorem c1_minus_strand_window_witness :
    (extractWindow demoGene demoEdited 3 2).focus_offset
      = (extractWindow demoGene demoRef 3 2).focus_offset ∧
    (extractWindow demoGene demoRef 3 2).seq
      = reverseComplement (sliceSeq demoRef
          ((windowAround demoGene.length 3 (2 / 2)).lo + 1)
          ((windowAround demoGene.length 3 (2 / 2)).hi + 1)) :=
  c1_minus_strand_window demoGene demoRef demoEdited 3 2 rfl

/-- An EditOp as in the data model: single-base substitution
`pos_gene0, from, to` (the `from` field is named `fromBase` because
`from` is reserved). -/
structure EditOp where
  pos : Nat
  fromBase : Base
  toBase : Base
deriving DecidableEq, Repr

/-- Errors of SequenceEditor.applyEdits (§4.3 / §7 taxonomy). -/
inductive EditError where
  | outOfRange (pos : Nat) : EditError
  | baseMismatch (pos : Nat) : EditError
  | editConflict (pos : Nat) : EditError
deriving DecidableEq, Repr

/-- Modelled from the spec: the recursion of `applyEdits` (§4.3, missing
from src/).  Edits are applied in the order given; each edit's `from`
is validated against the running (already partially edited) sequence;
a mismatch is `EditConflict` when an earlier edit of the same call
already touched that position, otherwise `BaseMismatch`. -/
def applyEditsGo (s : List Base) (touched : List Nat) :
    List EditOp → Except EditError (List Base)
  | [] => Except.ok s
  | e :: rest =>
      match s[e.pos]? with
      | none => Except.error (EditError.outOfRange e.pos)
      | some b =>
          if b = e.fromBase then
            applyEditsGo (s.set e.pos e.toBase) (e.pos :: touched) rest
          else if e.pos ∈ touched then
            Except.error (EditError.editConflict e.pos)
          else
            Except.error (EditError.baseMismatch e.pos)

/-- Modelled from the spec: `applyEdits(base_sequence, edits)` of
SequenceEditor (§4.3, missing from src/). -/
def applyEdits (s : List Base) (edits : List EditOp) :
    Except EditError (List Base) :=
  applyEditsGo s [] edits

theorem applyEditsGo_length (edits : List EditOp) :
    ∀ (s : List Base) (touched : List Nat) (s' : List Base),
      applyEditsGo s touched edits = Except.ok s' → s'.length = s.length := by
  induction edits with
  | nil =>
      intro s touched s' h
      simp [applyEditsGo] at h
      simp [h]
  | cons e rest ih =>
      intro s touched s' h
      unfold applyEditsGo at h
      split at h
      · simp at h
      · split at h
        · have := ih (s.set e.pos e.toBase) (e.pos :: touched) s' h
          simpa [List.length_set] using this
        · split at h <;> simp at h

/-- Claim C2 (amended): every accepted EditOp list is applied as
single-base substitutions, so a successful `applyEdits` preserves the
sequence length. -/
theorem c2_applyEdits_preserves_length
    (s : List Base) (edits : List EditOp) (s' : List Base)
    (h : applyEdits s edits = Except.ok s') :
    s'.length = s.length :=
  applyEditsGo_length edits s [] s' h

/-- Witness for C2 (amended): a concrete accepted substitution keeps the
length. -/
theorem c2_applyEdits_preserves_length_witness :
    applyEdits [Base.A, Base.C] [⟨0, Base.A, Base.T⟩]
      = Except.ok [Base.T, Base.C] ∧
    ([Base.T, Base.C] : List Base).length = ([Base.A, Base.C] : List Base).length :=
  ⟨rfl,
   c2_applyEdits_preserves_length [Base.A, Base.C] [⟨0, Base.A, Base.T⟩]
     [Base.T, Base.C] rfl⟩

/-- A node of the edit-state graph: `parent_state_id` (none = derived
directly from the disease baseline) and the edits added at this node. -/
structure StateNode where
  parent : Option Nat
  edits : List EditOp
deriving DecidableEq, Repr

/-- Modelled from the spec: the EditStateGraph of one disease (§4.4,
missing from src/): the baseline sequence (representative SNV already
applied) and the arena of immutable nodes, addressed by index. -/
structure EditStateGraph where
  baseline : List Base
  nodes : List StateNode
deriving DecidableEq, Repr

/-- Errors of EditStateGraph operations (§4.4 / §7 taxonomy). -/
inductive GraphError where
  | invalidParent : GraphError
  | invalidEdit (e : EditError) : GraphError
  | cycleDetected : GraphError
  | unknownState : GraphError
deriving DecidableEq, Repr

/-- Modelled from the spec: the bounded-hop walk of `materialize`
(§4.4, missing from src/): collect each ancestor's `applied_edit` list
in root-to-leaf order, failing with CycleDetected when the fuel runs
out. -/
def lineageEdits (g : EditStateGraph) : Nat → Nat → Except GraphError (List (List EditOp))
  | 0, _ => Except.error GraphError.cycleDetected
  | fuel + 1, id =>
      match g.nodes[id]? with
      | none => Except.error GraphError.unknownState
      | some n =>
          match n.parent with
          | none => Except.ok [n.edits]
          | some p => (lineageEdits g fuel p).map (fun l => l ++ [n.edits])

/-- Modelled from the spec: `materialize(state_id)` (§4.4, missing from
src/): replay the collected edit lists onto the baseline in root-to-leaf
order via SequenceEditor. -/
def materialize (g : EditStateGraph) (id : Nat) : Except GraphError (List Base) :=
  (lineageEdits g (g.nodes.length + 1) id).bind
    (fun ls => ls.foldlM
      (fun s es => (applyEdits s es).mapError GraphError.invalidEdit) g.baseline)

/-- Modelled from the spec: `createState(disease_id, parent, edits)`
(§4.4, missing from src/, single-disease arena): validates the parent
and validates the edits against the materialized parent sequence before
committing; returns the extended graph and the new state id. -/
def createState (g : EditStateGraph) (parent : Option Nat) (edits : List EditOp) :
    Except GraphError (EditStateGraph × Nat) :=
  (match parent with
   | none => Except.ok g.baseline
   | some p =>
       if p < g.nodes.length then materialize g p
       else Except.error GraphError.invalidParent).bind
    (fun parentSeq =>
      ((applyEdits parentSeq edits).mapError GraphError.invalidEdit).map
        (fun _ =>
          let g' : EditStateGraph :=
            { g with nodes := g.nodes ++ [StateNode.mk parent edits] }
          (g', g.nodes.length)))

/-- Baseline sequence for the C5 scenario: base A at position 5. -/
def c5Baseline : List Base :=
  [Base.A, Base.C, Base.G, Base.T, Base.A, Base.A, Base.G, Base.T, Base.A, Base.C]

/-- The C5 scenario run: create a state editing pos 5 A→T on the
baseline, then a child state editing pos 5 T→G, then materialize the
child and read position 5; `none` encodes any failure along the way. -/
def c5Run : Option Base :=
  match createState { baseline := c5Baseline, nodes := [] } none [⟨5, Base.A, Base.T⟩] with
  | Except.error _ => none
  | Except.ok (g1, id1) =>
      match createState g1 (some id1) [⟨5, Base.T, Base.G⟩] with
      | Except.error _ => none
      | Except.ok (g2, id2) =>
          match materialize g2 id2 with
          | Except.error _ => none
          | Except.ok s => s[5]?

/-- Claim C5: `applyEdits` validates an edit's `from` base against the
running sequence at apply time (a single edit whose `from` disagrees
with the current base fails with BaseMismatch), and the parent/child
scenario — edit pos 5 A→T, then child edit pos 5 T→G — succeeds, with
the materialized child carrying base G at position 5. -/
theorem c5_running_validation :
    c5Run = some Base.G ∧
    ∀ (s : List Base) (e : EditOp) (b : Base),
      s[e.pos]? = some b → b ≠ e.fromBase →
      applyEdits s [e] = Except.error (EditError.baseMismatch e.pos) := by
  constructor
  · rfl
  · intro s e b hb hne
    unfold applyEdits applyEditsGo
    simp [hb, hne]

/-- Witness for C5's quantified conjunct: a concrete mismatching edit is
rejected with BaseMismatch against the running sequence. -/
theorem c5_running_validation_witness :
    applyEdits [Base.A] [⟨0, Base.C, Base.T⟩]
      = Except.error (EditError.baseMismatch 0) :=
  c5_running_validation.2 [Base.A] ⟨0, Base.C, Base.T⟩ Base.A rfl (by decide)

/-- The `koreanToEnglish` lookup table of
DNAManipulator.handleSequenceChange: jamo ㅁ ㅊ ㅎ ㅅ ㅜ and lowercase
a c g t n map to A C G T N; everything else misses. -/
def koreanToEnglish (c : Char) : Option Char :=
  if c = 'ㅁ' then some 'A'
  else if c = 'ㅊ' then some 'C'
  else if c = 'ㅎ' then some 'G'
  else if c = 'ㅅ' then some 'T'
  else if c = 'ㅜ' then some 'N'
  else if c = 'a' then some 'A'
  else if c = 'c' then some 'C'
  else if c = 'g' then some 'G'
  else if c = 't' then some 'T'
  else if c = 'n' then some 'N'
  else none

/-- Whether a character belongs to the frontend alphabet ACGTN
(the `'ACGTN'.includes(upper)` test). -/
def isBaseChar (c : Char) : Bool :=
  c = 'A' || c = 'C' || c = 'G' || c = 'T' || c = 'N'

/-- Per-character conversion of handleSequenceChange: first the direct
table lookup, then the lookup of the upper-cased character, then the
ACGTN membership test on the upper-cased character; anything else is
dropped (returns none). -/
def convertChar (c : Char) : Option Char :=
  match koreanToEnglish c with
  | some m => some m
  | none =>
      match koreanToEnglish c.toUpper with
      | some m => some m
      | none => if isBaseChar c.toUpper then some c.toUpper else none

/-- The character-filtering loop of handleSequenceChange building
`converted` from the raw textarea input. -/
def convertInput (input : List Char) : List Char :=
  input.filterMap convertChar

/-- handleSequenceChange as a transition on the stored sequence: the
converted input replaces the current sequence unless the conversion is
empty while the current sequence is non-empty, in which case the change
is ignored and the stored sequence kept. -/
def handleSequenceChange (current input : List Char) : List Char :=
  let converted := convertInput input
  if converted.length = 0 ∧ current.length > 0 then current else converted

theorem koreanToEnglish_base (c m : Char) (h : koreanToEnglish c = some m) :
    isBaseChar m = true := by
  unfold koreanToEnglish at h
  repeat' split at h
  all_goals first
    | (obtain rfl := Option.some.inj h; decide)
    | exact Option.noConfusion h

theorem convertChar_base (c m : Char) (h : convertChar c = some m) :
    isBaseChar m = true := by
  unfold convertChar at h
  cases h1 : koreanToEnglish c with
  | some m1 =>
      rw [h1] at h
      simp at h
      exact h ▸ koreanToEnglish_base c m1 h1
  | none =>
      rw [h1] at h
      cases h2 : koreanToEnglish c.toUpper with
      | some m2 =>
          rw [h2] at h
          simp at h
          exact h ▸ koreanToEnglish_base c.toUpper m2 h2
      | none =>
          rw [h2] at h
          simp at h
          by_cases hb : isBaseChar c.toUpper = true
          · simp [hb] at h
            rw [← h]
            exact hb
          · simp [hb] at h

theorem convertInput_base (input : List Char) :
    (convertInput input).all isBaseChar = true := by
  rw [List.all_eq_true]
  intro m hm
  unfold convertInput at hm
  rw [List.mem_filterMap] at hm
  obtain ⟨c, _, hc⟩ := hm
  exact convertChar_base c m hc

/-- Claim C10: assuming the stored sequence is over ACGTN, after any
input to handleSequenceChange it is still over ACGTN; and on a fresh
(empty) store the sample input `aㅁㅊㅎㅅㅜ!x` is upper-cased,
jamo-mapped and filtered to exactly `AACGTN`. -/
theorem c10_handler_alphabet_closed
    (current input : List Char)
    (h : current.all isBaseChar = true) :
    (handleSequenceChange current input).all isBaseChar = true ∧
    handleSequenceChange [] ['a', 'ㅁ', 'ㅊ', 'ㅎ', 'ㅅ', 'ㅜ', '!', 'x']
      = ['A', 'A', 'C', 'G', 'T', 'N'] := by
  constructor
  · by_cases hc : convertInput input = [] ∧ 0 < current.length
    · simpa [handleSequenceChange, hc] using h
    · simpa [handleSequenceChange, hc] using convertInput_base input
  · rfl

/-- Witness for C10: a concrete alphabet-only store stays alphabet-only
after a junk-laden input. -/
theorem c10_handler_alphabet_closed_witness :
    (handleSequenceChange ['A', 'T'] ['z', 'g', '?']).all isBaseChar = true :=
  (c10_handler_alphabet_closed ['A', 'T'] ['z', 'g', '?'] (by decide)).1

/-- Counterexample for C2: handleSequenceChange accepts the input `AA`
over the stored single-base sequence `A`, storing a sequence of a
different length — the editing interface does not restrict edits to
single-base substitutions, so edited sequences need not keep the
original length. -/
theorem c2_handler_length_counterexample :
    handleSequenceChange ['A'] ['A', 'A'] = ['A', 'A'] ∧
    (handleSequenceChange ['A'] ['A', 'A']).length ≠ (['A'] : List Char).length := by
  constructor
  · rfl
  · decide

/-- `region_type in ('exon','intron')` of the region DDL. -/
inductive RegionType where
  | exon : RegionType
  | intron : RegionType
deriving DecidableEq, Repr

/-- A row of the `region` table of the rebuild schema: gene-local
0-based coordinates, `gene_end_idx` inclusive. -/
structure RegionRow where
  region_id : String
  gene_id : String
  region_type : RegionType
  region_number : Nat
  gene_start_idx : Nat
  gene_end_idx : Nat
  length : Nat
  sequence : List Base
  cds_start_offset : Option Nat
  cds_end_offset : Option Nat
deriving DecidableEq, Repr

/-- The CHECK constraints of the `region` table in the rebuild schema:
`gene_end_idx >= gene_start_idx`, `length = gene_end_idx -
gene_start_idx + 1`, `char_length(sequence) = length`,
`region_number > 0` (`gene_start_idx >= 0` holds by the Nat encoding). -/
def regionRowCheck (r : RegionRow) : Bool :=
  decide (r.gene_start_idx ≤ r.gene_end_idx) &&
  decide (r.length = r.gene_end_idx - r.gene_start_idx + 1) &&
  decide (r.sequence.length = r.length) &&
  decide (0 < r.region_number)

/-- A row of the `gene` table as far as region tiling is concerned,
with its CHECK constraints `length > 0`, `exon_count > 0`. -/
structure GeneRow where
  gene_id : String
  strand : Strand
  length : Nat
  exon_count : Nat
deriving DecidableEq, Repr

/-- The CHECK constraints of the `gene` table in the rebuild schema. -/
def geneRowCheck (g : GeneRow) : Bool :=
  decide (0 < g.length) && decide (0 < g.exon_count)

/-- Everything the rebuild schema enforces on a gene together with its
region rows: the row CHECKs, the foreign key `region.gene_id =
gene.gene_id`, and the uniqueness of `(gene_id, region_type,
region_number)`. -/
def schemaAccepts (g : GeneRow) (rs : List RegionRow) : Bool :=
  geneRowCheck g &&
  rs.all (fun r => regionRowCheck r && decide (r.gene_id = g.gene_id)) &&
  decide ((rs.map (fun r => (r.region_type, r.region_number))).Nodup)

/-- The tiling property claimed for a gene's regions: every gene-local
position in `[0, length)` is contained in exactly one region, and no
region reaches past the gene. -/
def regionsTile (rs : List RegionRow) (len : Nat) : Bool :=
  (List.range len).all
    (fun p => rs.countP (fun r => r.gene_start_idx ≤ p && p ≤ r.gene_end_idx) = 1) &&
  rs.all (fun r => r.gene_end_idx < len)

/-- Sum of the `length` columns of a list of region rows. -/
def regionLengthSum (rs : List RegionRow) : Nat :=
  (rs.map (fun r => r.length)).sum

/-- A gene of length 10 whose single stored region covers only `[0,4]`:
every CHECK constraint of the schema is satisfied. -/
def gapGene : GeneRow :=
  { gene_id := "G1", strand := Strand.plus, length := 10, exon_count := 1 }

/-- The single region row of `gapGene`, length 5 over a gene of
length 10. -/
def gapRegions : List RegionRow :=
  [{ region_id := "G1_exon_1", gene_id := "G1", region_type := RegionType.exon,
     region_number := 1, gene_start_idx := 0, gene_end_idx := 4, length := 5,
     sequence := [Base.A, Base.C, Base.G, Base.T, Base.A],
     cds_start_offset := none, cds_end_offset := none }]

/-- Counterexample for C3: the schema accepts a gene of length 10 whose
regions neither tile `[0, 10)` nor sum to the gene length — tiling is
not enforced by any constraint in the repository. -/
theorem c3_tiling_not_enforced :
    schemaAccepts gapGene gapRegions = true ∧
    regionsTile gapRegions gapGene.length = false ∧
    regionLengthSum gapRegions ≠ gapGene.length := by
  refine ⟨by decide, by decide, by decide⟩

/-- Claim C3 (amended): every region row satisfying the schema's CHECK
constraints has `length = gene_end_idx - gene_start_idx + 1 =
len(sequence)`; the tiling of `[0, gene.length)` and the sum of region
lengths are not enforced by the repository's schema. -/
theorem c3_region_length_invariant
    (r : RegionRow) (h : regionRowCheck r = true) :
    r.length = r.gene_end_idx - r.gene_start_idx + 1 ∧
    r.sequence.length = r.length := by
  unfold regionRowCheck at h
  simp only [Bool.and_eq_true, decide_eq_true_eq] at h
  exact ⟨h.1.1.2, h.1.2⟩

/-- Witness for C3 (amended) at the concrete `gapRegions` row. -/
theorem c3_region_length_invariant_witness :
    ({ region_id := "G1_exon_1", gene_id := "G1", region_type := RegionType.exon,
       region_number := 1, gene_start_idx := 0, gene_end_idx := 4, length := 5,
       sequence := [Base.A, Base.C, Base.G, Base.T, Base.A],
       cds_start_offset := none, cds_end_offset := none } : RegionRow).length
        = 4 - 0 + 1 ∧
    ([Base.A, Base.C, Base.G, Base.T, Base.A] : List Base).length = 5 :=
  c3_region_length_invariant
    { region_id := "G1_exon_1", gene_id := "G1", region_type := RegionType.exon,
      region_number := 1, gene_start_idx := 0, gene_end_idx := 4, length := 5,
      sequence := [Base.A, Base.C, Base.G, Base.T, Base.A],
      cds_start_offset := none, cds_end_offset := none } (by decide)

/-- `step in ('step3','step4')` of the rebuild schema's result tables. -/
inductive Step where
  | step3 : Step
  | step4 : Step
deriving DecidableEq, Repr

/-- The primary key of `baseline_result` in the rebuild schema:
`primary key (gene_id, step, model_version)`. -/
structure BaselineKey where
  gene_id : String
  step : Step
  model_version : String
deriving DecidableEq, Repr

/-- The `baseline_result` table as a list of key/payload rows (the
`result_payload` jsonb is kept opaque as a string). -/
abbrev BaselineTable : Type := List (BaselineKey × String)

/-- Primary-key lookup on `baseline_result`. -/
def lookupBaseline (t : BaselineTable) (k : BaselineKey) : Option String :=
  (List.find? (fun row => row.1 = k) t).map (fun row => row.2)

/-- Modelled from the spec: ResultCache's write-once insert into
`baseline_result` (the ResultCache implementation is missing from
src/): a row is appended only when its key is absent; an existing row
is never overwritten. -/
def insertBaseline (t : BaselineTable) (k : BaselineKey) (payload : String) :
    BaselineTable :=
  match lookupBaseline t k with
  | some _ => t
  | none => t ++ [(k, payload)]

theorem lookupBaseline_append_single (t : BaselineTable)
    (k k' : BaselineKey) (p : String) :
    lookupBaseline (t ++ [(k', p)]) k
      = match lookupBaseline t k with
        | some v => some v
        | none => if k' = k then some p else none := by
  unfold lookupBaseline
  rw [List.find?_append]
  cases hf : List.find? (fun row => row.1 = k) t with
  | some row => simp
  | none =>
      simp only [Option.map_none', Option.none_orElse]
      by_cases hk : k' = k
      · simp [List.find?, hk]
      · simp [List.find?, hk]

/-- Claim C4: `baseline_result` rows are keyed by `(gene_id, step,
model_version)` and are write-once: inserting a result for the same
gene and step under a new `model_version` creates a new row, leaves
every existing binding unchanged, and an insert at an existing key
never overwrites its payload. -/
theorem c4_baseline_write_once
    (t : BaselineTable) (gid : String) (st : Step) (mv mv' : String)
    (p p' : String)
    (hfresh : lookupBaseline t ⟨gid, st, mv'⟩ = none) :
    lookupBaseline (insertBaseline t ⟨gid, st, mv'⟩ p') ⟨gid, st, mv'⟩ = some p' ∧
    (∀ k v, lookupBaseline t k = some v →
      lookupBaseline (insertBaseline t ⟨gid, st, mv'⟩ p') k = some v) ∧
    (lookupBaseline t ⟨gid, st, mv⟩ = some p →
      insertBaseline t ⟨gid, st, mv⟩ p' = t) := by
  refine ⟨?_, ?_, ?_⟩
  · unfold insertBaseline
    rw [hfresh, lookupBaseline_append_single, hfresh]
    simp
  · intro k v hv
    unfold insertBaseline
    rw [hfresh, lookupBaseline_append_single, hv]
  · intro hp
    unfold insertBaseline
    rw [hp]

/-- Witness for C4: a table holding `(G1, step3, v1)` accepts
`(G1, step3, v2)` as a genuinely new row while keeping the old one. -/
theorem c4_baseline_write_once_witness :
    lookupBaseline
        (insertBaseline [(⟨"G1", Step.step3, "v1"⟩, "r1")] ⟨"G1", Step.step3, "v2"⟩ "r2")
        ⟨"G1", Step.step3, "v2"⟩ = some "r2" ∧
    lookupBaseline
        (insertBaseline [(⟨"G1", Step.step3, "v1"⟩, "r1")] ⟨"G1", Step.step3, "v2"⟩ "r2")
        ⟨"G1", Step.step3, "v1"⟩ = some "r1" := by
  have h := c4_baseline_write_once [(⟨"G1", Step.step3, "v1"⟩, "r1")]
    "G1" Step.step3 "v1" "v2" "r1" "r2" (by decide)
  exact ⟨h.1, h.2.1 ⟨"G1", Step.step3, "v1"⟩ "r1" (by decide)⟩

/-- A row of the `user_state` table of the rebuild schema:
`parent_state_id` is a nullable self-reference declared
`on delete set null`, `applied_edit` holds the node's edit list, and
`updated_at` is maintained by the `set_updated_at` trigger. -/
structure UserStateRow where
  state_id : Nat
  disease_id : String
  parent_state_id : Option Nat
  applied_edit : List EditOp
  created_at : Nat
  updated_at : Nat
deriving DecidableEq, Repr

/-- Inserting a new `user_state` row (state creation writes a fresh row;
existing rows are untouched by the INSERT itself). -/
def insertUserState (store : List UserStateRow) (nr : UserStateRow) :
    List UserStateRow :=
  store ++ [nr]

/-- Deleting a `user_state` row as the rebuild schema executes it: the
victim row is removed, and the `on delete set null` action of
`parent_state_id` rewrites every child row's parent to NULL — an
UPDATE on which the `set_updated_at` trigger fires, stamping `now`. -/
def deleteUserState (store : List UserStateRow) (victim : Nat) (now : Nat) :
    List UserStateRow :=
  (store.filter (fun r => r.state_id ≠ victim)).map
    (fun r =>
      if r.parent_state_id = some victim then
        { r with parent_state_id := none, updated_at := now }
      else r)

/-- A two-row store: state 1 is a child of state 0. -/
def demoUserStore : List UserStateRow :=
  [{ state_id := 0, disease_id := "D", parent_state_id := none,
     applied_edit := [], created_at := 0, updated_at := 0 },
   { state_id := 1, disease_id := "D", parent_state_id := some 0,
     applied_edit := [⟨5, Base.A, Base.T⟩], created_at := 1, updated_at := 1 }]

/-- Counterexample for C7: deleting state 0 changes existing state 1 —
its `parent_state_id` flips from `some 0` to `none` (and `updated_at`
is bumped by the trigger), so UserState nodes are not immune to every
operation on the system. -/
theorem c7_delete_mutates_child :
    deleteUserState demoUserStore 0 2
      = [{ state_id := 1, disease_id := "D", parent_state_id := none,
           applied_edit := [⟨5, Base.A, Base.T⟩], created_at := 1, updated_at := 2 }] ∧
    (demoUserStore.filter (fun r => r.state_id = 1)
      = [{ state_id := 1, disease_id := "D", parent_state_id := some 0,
           applied_edit := [⟨5, Base.A, Base.T⟩], created_at := 1, updated_at := 1 }]) := by
  refine ⟨by decide, by decide⟩

/-- Claim C7 (amended): inserting a new state leaves every existing row
unchanged, and deleting a state changes surviving rows in no field
except `parent_state_id` (set to NULL exactly for children of the
victim) and the trigger-maintained `updated_at`. -/
theorem c7_rows_stable_outside_parent_nulling :
    (∀ (store : List UserStateRow) (nr r : UserStateRow),
      r ∈ store → r ∈ insertUserState store nr) ∧
    (∀ (store : List UserStateRow) (victim now : Nat) (r' : UserStateRow),
      r' ∈ deleteUserState store victim now →
      ∃ r ∈ store,
        r.state_id = r'.state_id ∧ r.disease_id = r'.disease_id ∧
        r.applied_edit = r'.applied_edit ∧ r.created_at = r'.created_at ∧
        (r' = r ∨ (r.parent_state_id = some victim ∧ r'.parent_state_id = none))) := by
  constructor
  · intro store nr r hr
    exact List.mem_append_left _ hr
  · intro store victim now r' hr'
    unfold deleteUserState at hr'
    rw [List.mem_map] at hr'
    obtain ⟨r, hrf, hmap⟩ := hr'
    rw [List.mem_filter] at hrf
    refine ⟨r, hrf.1, ?_⟩
    by_cases hp : r.parent_state_id = some victim
    · rw [if_pos hp] at hmap
      subst hmap
      exact ⟨rfl, rfl, rfl, rfl, Or.inr ⟨hp, rfl⟩⟩
    · rw [if_neg hp] at hmap
      subst hmap
      exact ⟨rfl, rfl, rfl, rfl, Or.inl rfl⟩

/-- Witness for C7 (amended): both conjuncts applied to the demo store. -/
theorem c7_rows_stable_outside_parent_nulling_witness :
    ({ state_id := 0, disease_id := "D", parent_state_id := none,
       applied_edit := [], created_at := 0, updated_at := 0 } : UserStateRow)
      ∈ insertUserState demoUserStore
          { state_id := 2, disease_id := "D", parent_state_id := some 1,
            applied_edit := [], created_at := 3, updated_at := 3 } ∧
    ∃ r ∈ demoUserStore,
      r.state_id = 1 ∧ r.disease_id = "D" ∧
      r.applied_edit = [⟨5, Base.A, Base.T⟩] ∧ r.created_at = 1 ∧
      (({ state_id := 1, disease_id := "D", parent_state_id := none,
          applied_edit := [⟨5, Base.A, Base.T⟩], created_at := 1,
          updated_at := 2 } : UserStateRow) = r ∨
        (r.parent_state_id = some 0 ∧
          (none : Option Nat) = none)) := by
  constructor
  · exact c7_rows_stable_outside_parent_nulling.1 demoUserStore
      { state_id := 2, disease_id := "D", parent_state_id := some 1,
        applied_edit := [], created_at := 3, updated_at := 3 }
      { state_id := 0, disease_id := "D", parent_state_id := none,
        applied_edit := [], created_at := 0, updated_at := 0 }
      (by decide)
  · exact c7_rows_stable_outside_parent_nulling.2 demoUserStore 0 2
      { state_id := 1, disease_id := "D", parent_state_id := none,
        applied_edit := [⟨5, Base.A, Base.T⟩], created_at := 1, updated_at := 2 }
      (by decide)

/-- `status in ('queued','running','succeeded','failed','canceled')` of
the `structure_job` table. -/
inductive JobStatus where
  | queued : JobStatus
  | running : JobStatus
  | succeeded : JobStatus
  | failed : JobStatus
  | canceled : JobStatus
deriving DecidableEq, Repr

/-- A `structure_job` row as the job manager sees it: status plus the
payload/error columns populated on terminal states. -/
structure StructureJob where
  status : JobStatus
  result_payload : Option String
  error_message : Option String
deriving DecidableEq, Repr

/-- An external provider update delivered to `onProviderUpdate`:
a progress signal, a success carrying a payload, or a failure carrying
an error message. -/
inductive ProviderUpdate where
  | progress : ProviderUpdate
  | succeeded (payload : String) : ProviderUpdate
  | failed (msg : String) : ProviderUpdate
deriving DecidableEq, Repr

/-- Whether a job status is terminal. -/
def isTerminal : JobStatus → Bool
  | JobStatus.succeeded => true
  | JobStatus.failed => true
  | JobStatus.canceled => true
  | _ => false

/-- The status a provider update drives toward. -/
def updateTarget : ProviderUpdate → JobStatus
  | ProviderUpdate.progress => JobStatus.running
  | ProviderUpdate.succeeded _ => JobStatus.succeeded
  | ProviderUpdate.failed _ => JobStatus.failed

/-- The error surfaced when a terminal job receives a non-matching
update (§4.6: reported, job not corrupted). -/
inductive JobError where
  | invalidTransition : JobError
deriving DecidableEq, Repr

/-- Modelled from the spec: `onProviderUpdate` of StructureJobManager
(§4.6, missing from src/): from a terminal status, a re-delivery of the
matching update is a no-op with no error and any other update is
reported as InvalidTransition with the job untouched; otherwise a
progress signal moves to running, and terminal signals store their
payload or error message. -/
def onProviderUpdate (j : StructureJob) (u : ProviderUpdate) :
    StructureJob × Option JobError :=
  if isTerminal j.status then
    if updateTarget u = j.status then (j, none)
    else (j, some JobError.invalidTransition)
  else
    match u with
    | ProviderUpdate.progress => ({ j with status := JobStatus.running }, none)
    | ProviderUpdate.succeeded p =>
        ({ j with status := JobStatus.succeeded, result_payload := some p }, none)
    | ProviderUpdate.failed m =>
        ({ j with status := JobStatus.failed, error_message := some m }, none)

/-- Claim C8: once a job is terminal, re-delivering the update that
matches its status is a no-op — status, stored payload and error are
unchanged and no error is raised — and after any update the status is
one of queued, running, succeeded, failed, canceled. -/
theorem c8_terminal_idempotent
    (j : StructureJob) (u : ProviderUpdate)
    (ht : isTerminal j.status = true)
    (hm : updateTarget u = j.status) :
    onProviderUpdate j u = (j, none) ∧
    ∀ (j' : StructureJob) (u' : ProviderUpdate),
      (onProviderUpdate j' u').1.status = JobStatus.queued ∨
      (onProviderUpdate j' u').1.status = JobStatus.running ∨
      (onProviderUpdate j' u').1.status = JobStatus.succeeded ∨
      (onProviderUpdate j' u').1.status = JobStatus.failed ∨
      (onProviderUpdate j' u').1.status = JobStatus.canceled := by
  constructor
  · unfold onProviderUpdate
    rw [if_pos ht, if_pos hm]
  · intro j' u'
    cases h : (onProviderUpdate j' u').1.status <;> simp

/-- Witness for C8: a succeeded job with its stored payload absorbs a
duplicate success callback unchanged. -/
theorem c8_terminal_idempotent_witness :
    onProviderUpdate
        { status := JobStatus.succeeded, result_payload := some "pdb",
          error_message := none }
        (ProviderUpdate.succeeded "pdb")
      = ({ status := JobStatus.succeeded, result_payload := some "pdb",
           error_message := none }, none) :=
  (c8_terminal_idempotent
    { status := JobStatus.succeeded, result_payload := some "pdb",
      error_message := none }
    (ProviderUpdate.succeeded "pdb") rfl rfl).1
